import Mathlib

/-
  Verification development for the spot_client playlist export pipeline.

  The source is a Python program; upstream catalog responses are loosely
  typed JSON-like structures navigated with dict.get chains.  We embed
  Python values as the inductive type JVal and give the dict/list
  operations the same semantics the interpreter gives them, including
  the exceptions raised when a .get chain hits a non-dict value.  All
  Python exceptions are modelled uniformly as the single error value ()
  because every handler in the source catches the blanket Exception
  class and never inspects the exception.
-/

inductive JVal where
  | null
  | bool (b : Bool)
  | num (n : Int)
  | str (s : String)
  | arr (xs : List JVal)
  | obj (kvs : List (String × JVal))

/-- Python truthiness of a value: None, False, 0, empty string, empty
list and empty dict are falsy, everything else is truthy. -/
def truthy : JVal → Bool
  | JVal.null => false
  | JVal.bool b => b
  | JVal.num n => n != 0
  | JVal.str s => !s.isEmpty
  | JVal.arr xs => !xs.isEmpty
  | JVal.obj kvs => !kvs.isEmpty

/-- Python d.get(k, default): only dicts have a get method; calling it on
any other value raises AttributeError (modelled as error ()). -/
def pyGetD (v : JVal) (k : String) (d : JVal) : Except Unit JVal :=
  match v with
  | JVal.obj kvs =>
    match kvs.lookup k with
    | some x => Except.ok x
    | none => Except.ok d
  | _ => Except.error ()

/-- Python d.get(k) with the implicit default None. -/
def pyGet (v : JVal) (k : String) : Except Unit JVal :=
  pyGetD v k JVal.null

/-- Python a or b: a if a is truthy, otherwise b. -/
def pyOr (a b : JVal) : JVal :=
  if truthy a then a else b

/-- Python iteration: lists yield their elements, strings yield their
characters as one-character strings, dicts yield their keys; every
other value raises TypeError when iterated. -/
def iterElems : JVal → Except Unit (List JVal)
  | JVal.arr xs => Except.ok xs
  | JVal.str s => Except.ok (s.data.map (fun c => JVal.str (String.mk [c])))
  | JVal.obj kvs => Except.ok (kvs.map (fun kv => JVal.str kv.1))
  | _ => Except.error ()

/-- Python len: defined for lists, strings and dicts, TypeError otherwise. -/
def pyLen : JVal → Except Unit Nat
  | JVal.arr xs => Except.ok xs.length
  | JVal.str s => Except.ok s.length
  | JVal.obj kvs => Except.ok kvs.length
  | _ => Except.error ()

/-- Python v[0]: first element of a list; on an empty list IndexError,
and on values that do not support integer subscription with a usable
dict result (the only use site immediately calls .get on the result)
every non-list case ends in an exception. -/
def pyIndexZero : JVal → Except Unit JVal
  | JVal.arr (x :: _) => Except.ok x
  | _ => Except.error ()

/-
  Track Extractor (_extract_track_from_item, spot_client.py lines 64-101).
-/

/-- Characters matched by the character class of letters and digits used
in the track id pattern: ASCII letters and ASCII digits. -/
def isIdChar (c : Char) : Bool :=
  c.isUpper || c.isLower || c.isDigit

/-- Scan for the first position where the pattern consisting of the
literal text track: followed by at least one ASCII alphanumeric
character matches, as re.search does; the captured group is the maximal
alphanumeric run after the colon. -/
def findTrackIdAux : List Char → Option (List Char)
  | [] => none
  | c :: cs =>
    match c :: cs with
    | 't' :: 'r' :: 'a' :: 'c' :: 'k' :: ':' :: d :: rest =>
      if isIdChar d then some (d :: rest.takeWhile isIdChar)
      else findTrackIdAux cs
    | _ => findTrackIdAux cs

/-- Track id extraction from a uri string via the regex on line 90. -/
def findTrackId (s : String) : Option String :=
  (findTrackIdAux s.data).map String.mk

/-- The id field of the record (lines 88-92): pattern match only when
the uri is a string, absent otherwise; never raises. -/
def trackIdOf (uri : JVal) : JVal :=
  match uri with
  | JVal.str s =>
    match findTrackId s with
    | some t => JVal.str t
    | none => JVal.null
  | _ => JVal.null

/-- Album name and cover url (lines 71-78): when the album value is a
dict, the name falls back to the typename discriminator and the cover
url is the url of the first cover art source; when it is not a dict the
name stays None and the cover url is None. -/
def extractAlbumInfo (album : JVal) : Except Unit (JVal × JVal) :=
  match album with
  | JVal.obj kvs => do
    let an ← pyGet (JVal.obj kvs) "name"
    let albumName ← if truthy an then pure an else pyGet (JVal.obj kvs) "__typename"
    let ca ← pyGetD (JVal.obj kvs) "coverArt" (JVal.obj [])
    let coverArt ← pyGetD ca "sources" (JVal.arr [])
    let coverUrl ←
      if truthy coverArt then do
        let first ← pyIndexZero coverArt
        pyGet first "url"
      else pure JVal.null
    pure (albumName, coverUrl)
  | _ => pure (JVal.null, JVal.null)

/-- One step of the artist-name generator on line 81: entries whose
profile is falsy are silently skipped; a truthy profile must be a dict
carrying a string name, otherwise the surrounding join raises. -/
def artistNamesLoop : List JVal → Except Unit (List String)
  | [] => pure []
  | a :: rest => do
    let p ← pyGet a "profile"
    if truthy p then
      let nm ← pyGet p "name"
      match nm with
      | JVal.str s => do
        let tl ← artistNamesLoop rest
        pure (s :: tl)
      | _ => Except.error ()
    else artistNamesLoop rest

/-- Comma-joined artist display names (line 81), iterating the items
value the way Python iterates it. -/
def artistNames (items : JVal) : Except Unit (List String) := do
  let elems ← iterElems items
  artistNamesLoop elems

/-- Duration in milliseconds (lines 83-86): read only when the
defaulted duration value is a dict. -/
def durationMs (dur : JVal) : Except Unit JVal :=
  match dur with
  | JVal.obj kvs => pyGet (JVal.obj kvs) "totalMilliseconds"
  | _ => pure JVal.null

/-- Navigation to the track payload of a raw catalog item (line 65). -/
def itemData (item : JVal) : Except Unit JVal := do
  let iv2 ← pyGetD item "itemV2" (JVal.obj [])
  pyGetD iv2 "data" (JVal.obj [])

/-- Field extraction for a non-empty payload (lines 68-101), in source
order: name, uri, album block, artists, duration, id. -/
def extractFields (data : JVal) : Except Unit JVal := do
  let name ← pyGet data "name"
  let uri ← pyGet data "uri"
  let albumRaw ← pyGet data "albumOfTrack"
  let albumInfo ← extractAlbumInfo (pyOr albumRaw (JVal.obj []))
  let artistsObj ← pyGetD data "artists" (JVal.obj [])
  let artistsItems ← pyGetD artistsObj "items" (JVal.arr [])
  let names ← artistNames artistsItems
  let durRaw ← pyGet data "duration"
  let durationVal ← durationMs (pyOr durRaw (JVal.obj []))
  pure (JVal.obj
    [("name", name),
     ("artists", JVal.str (String.intercalate ", " names)),
     ("album", albumInfo.1),
     ("uri", uri),
     ("id", trackIdOf uri),
     ("duration_ms", durationVal),
     ("cover_url", albumInfo.2)])

/-- Track Extractor (lines 64-101): an item whose payload is falsy
yields the empty dict; otherwise every field is extracted from the
payload. -/
def _extract_track_from_item (item : JVal) : Except Unit JVal :=
  match itemData item with
  | Except.error e => Except.error e
  | Except.ok data =>
    if truthy data = false then Except.ok (JVal.obj [])
    else extractFields data

/-
  Playlist Collector (_collect_playlist_tracks, spot_client.py lines
  104-137).  The upstream playlist object is an external collaborator:
  its paginated generator is modelled as the finite list of chunks it
  yields followed by a flag saying whether it then raises instead of
  finishing, and the offset endpoint is modelled as the list of answers
  it gives to the successive calls at offsets 0, 100, 200, and so on,
  each answer being either a raised exception or a response value; a
  call past the end of the list is a raised exception.  Runs in which
  the endpoint answers full error-free batches forever do not terminate
  in the source and are outside this model.
-/

structure PrimarySource where
  chunks : List JVal
  raisesAtEnd : Bool

inductive FBResp where
  | raise
  | resp (v : JVal)

/-- Navigation from a raw response to its item list (lines 109 and 125,
which are textually identical in the source). -/
def contentItems (response : JVal) : Except Unit JVal := do
  let d ← pyGetD response "data" (JVal.obj [])
  let p ← pyGetD d "playlistV2" (JVal.obj [])
  let c ← pyGetD p "content" (JVal.obj [])
  pyGetD c "items" (JVal.arr [])

/-- The inner extraction loop shared by both paths (lines 110-113 and
128-131): extract every entry, append the truthy results to the
accumulator, and report whether an exception interrupted the loop;
entries appended before the interruption are kept, because the source
mutates one shared list. -/
def collectFromItems (acc : List JVal) : List JVal → List JVal × Bool
  | [] => (acc, false)
  | e :: rest =>
    match _extract_track_from_item e with
    | Except.error _ => (acc, true)
    | Except.ok t => collectFromItems (if truthy t then acc ++ [t] else acc) rest

/-- Primary path chunk loop (lines 108-113): stop with the raised flag
as soon as navigation, iteration or extraction raises. -/
def primaryChunks (acc : List JVal) : List JVal → List JVal × Bool
  | [] => (acc, false)
  | c :: cs =>
    match contentItems c with
    | Except.error _ => (acc, true)
    | Except.ok items =>
      match iterElems items with
      | Except.error _ => (acc, true)
      | Except.ok elems =>
        let r := collectFromItems acc elems
        if r.2 then (r.1, true) else primaryChunks r.1 cs

/-- Everything the primary path produces: the collected tracks and
whether the try block raised, either inside the loop or because the
generator itself raised after its last chunk. -/
def primaryRun (prim : PrimarySource) : List JVal × Bool :=
  let r := primaryChunks [] prim.chunks
  if r.2 then r else (r.1, prim.raisesAtEnd)

/-- One fallback iteration (lines 122-136) on one response: any raise
ends the loop, an untruthy item list ends the loop, and a batch smaller
than the fixed limit of 100 ends the loop; the second component says
whether the loop continues to the next offset. -/
def fallbackIter (acc : List JVal) (info : JVal) : List JVal × Bool :=
  match contentItems info with
  | Except.error _ => (acc, false)
  | Except.ok items =>
    if truthy items = false then (acc, false)
    else
      match iterElems items with
      | Except.error _ => (acc, false)
      | Except.ok elems =>
        let r := collectFromItems acc elems
        if r.2 then (r.1, false)
        else
          match pyLen items with
          | Except.error _ => (r.1, false)
          | Except.ok n => if n < 100 then (r.1, false) else (r.1, true)

/-- Fallback loop over the successive endpoint answers, also counting
how many calls were made (a raising call still counts as one call). -/
def fallbackRun (acc : List JVal) : List FBResp → List JVal × Nat
  | [] => (acc, 1)
  | FBResp.raise :: _ => (acc, 1)
  | FBResp.resp v :: rest =>
    match fallbackIter acc v with
    | (t, false) => (t, 1)
    | (t, true) =>
      let r := fallbackRun t rest
      (r.1, r.2 + 1)

/-- Playlist Collector (lines 104-137): primary path first; its result
is returned only when the try block did not raise and the collected
list is truthy, otherwise the fallback loop continues on the same list;
the second component counts the fallback endpoint calls. -/
def _collect_run (prim : PrimarySource) (fb : List FBResp) : List JVal × Nat :=
  let p := primaryRun prim
  if !p.2 && !p.1.isEmpty then (p.1, 0)
  else fallbackRun p.1 fb

def _collect_playlist_tracks (prim : PrimarySource) (fb : List FBResp) : List JVal :=
  (_collect_run prim fb).1

def _collect_fallback_calls (prim : PrimarySource) (fb : List FBResp) : Nat :=
  (_collect_run prim fb).2

/-- Tracks the fallback path collects when it starts from an empty
accumulator, the collected-up-to-failure sequence of the fallback
source on its own. -/
def fallbackCollected (fb : List FBResp) : List JVal :=
  (fallbackRun [] fb).1

/-
  Tag Embedder (_embed_tags, spot_client.py lines 152-207).  The four
  per-format writers are calls into the mutagen library, an external
  collaborator; each branch is abstracted as one backend function from
  the current file bytes and the three tag values (plus cover bytes for
  the two formats that embed covers) to new file bytes or a raised
  exception.  The dispatch itself, the lowercasing of the extension and
  the untouched fall-through branch are code of this repository and are
  embedded exactly.
-/

/-- Lowercasing as applied to the extension (line 153), ASCII case map. -/
def lowerStr (s : String) : String :=
  String.mk (s.data.map Char.toLower)

/-- The part of the path after its last slash, the basename the
extension is computed from. -/
def afterLastSlash (p : List Char) : List Char :=
  (p.reverse.takeWhile (fun c => c != '/')).reverse

/-- Extension splitting as os.path.splitext does it on posix paths: the
extension starts at the last dot of the basename, except that a
basename consisting of leading dots only up to that dot has no
extension. -/
def splitextExtChars (p : List Char) : List Char :=
  let base := afterLastSlash p
  let rev := base.reverse
  let sufRev := rev.takeWhile (fun c => c != '.')
  match rev.drop sufRev.length with
  | [] => []
  | _ :: preRev =>
    if preRev.all (fun c => c == '.') then []
    else '.' :: sufRev.reverse

def splitextExt (p : String) : String :=
  String.mk (splitextExtChars p.data)

inductive TagHandler where
  | id3
  | mp4
  | opus
  | ogg
  | unsupported
deriving DecidableEq

/-- Format dispatch on the lowercased extension, mirroring the chain of
extension tests on lines 158, 179, 190 and 198 and the final
fall-through on line 207. -/
def extHandler (ext : String) : TagHandler :=
  if ext = ".mp3" then TagHandler.id3
  else if ext = ".m4a" ∨ ext = ".mp4" ∨ ext = ".aac" then TagHandler.mp4
  else if ext = ".opus" then TagHandler.opus
  else if ext = ".ogg" then TagHandler.ogg
  else TagHandler.unsupported

def _embed_tags_dispatch (file_path : String) : TagHandler :=
  extHandler (lowerStr (splitextExt file_path))

/-- Abstract mutagen writers, one per supported family; the ogg family
writers take no cover because the source never passes one to them. -/
structure TagBackend where
  id3Embed : List Nat → JVal → JVal → JVal → Option (List Nat) → Except Unit (List Nat)
  mp4Embed : List Nat → JVal → JVal → JVal → Option (List Nat) → Except Unit (List Nat)
  opusEmbed : List Nat → JVal → JVal → JVal → Except Unit (List Nat)
  oggEmbed : List Nat → JVal → JVal → JVal → Except Unit (List Nat)

/-- Tag Embedder (lines 152-207) acting on the bytes of the named file:
the three tag values are read from the track dict first (lines 154-156,
raising on a non-dict track), then the extension dispatch selects a
writer; the unsupported branch returns the bytes untouched.  The three
reads are sequential in the source; as all exceptions are modelled by
the same value, collapsing their error cases is faithful. -/
def _embed_tags (be : TagBackend) (file_path : String) (track : JVal)
    (cover : Option (List Nat)) (bytes : List Nat) : Except Unit (List Nat) :=
  match pyGet track "name", pyGet track "artists", pyGet track "album" with
  | Except.ok nameV, Except.ok artistsV, Except.ok albumV =>
    let title := pyOr nameV (JVal.str "")
    let artist := pyOr artistsV (JVal.str "")
    let album := pyOr albumV (JVal.str "")
    match _embed_tags_dispatch file_path with
    | TagHandler.id3 => be.id3Embed bytes title artist album cover
    | TagHandler.mp4 => be.mp4Embed bytes title artist album cover
    | TagHandler.opus => be.opusEmbed bytes title artist album
    | TagHandler.ogg => be.oggEmbed bytes title artist album
    | TagHandler.unsupported => Except.ok bytes
  | _, _, _ => Except.error ()

/-- The extensions with a format writer; every other extension takes
the fall-through branch. -/
def supportedExtensions : List String :=
  [".mp3", ".m4a", ".mp4", ".aac", ".opus", ".ogg"]

/-
  Filesystem-safe filename derivation (spot_client.py lines 317-318):
  the sequence number is rendered zero-padded to width 3, an underscore
  and the track name follow, every character of the class stripped by
  the substitution is removed, and the result is cut to 100 characters
  before the extension placeholder is attached.
-/

/-- Decimal digits of a natural number, most significant first; the
fuel argument only bounds the recursion depth and any fuel of at least
the digit count gives the digits. -/
def natCharsAux : Nat → Nat → List Char
  | 0, _ => []
  | fuel + 1, n =>
    if n < 10 then [Nat.digitChar n]
    else natCharsAux fuel (n / 10) ++ [Nat.digitChar (n % 10)]

def natChars (n : Nat) : List Char :=
  natCharsAux (n + 1) n

def natStr (n : Nat) : String :=
  String.mk (natChars n)

/-- Zero padding to width 3, the 03d format applied to the sequence
number. -/
def pad3 (l : List Char) : List Char :=
  List.replicate (3 - l.length) '0' ++ l

def format03 (n : Nat) : String :=
  String.mk (pad3 (natChars n))

/-- The characters the substitution on line 318 strips. -/
def illegalChars : List Char :=
  ['<', '>', ':', '"', '/', '\\', '|', '?', '*']

def keepChar (c : Char) : Bool :=
  decide (c ∉ illegalChars)

/-- Safe filename derivation (line 318): format the prefix, join with
an underscore, strip the illegal characters, truncate to 100. -/
def safe_name (idx : Nat) (name : String) : String :=
  String.mk ((((format03 idx).data ++ '_' :: name.data).filter keepChar).take 100)

/-
  Acquisition Orchestrator (cmd_export_playlist_with_audio,
  spot_client.py lines 286-360).  External collaborators: the download
  tool invocation (subprocess.run, line 332) is modelled per sequence
  number as either a raised exception carrying its message or a return
  code; the glob for the produced file (line 340) as the list of
  matching paths; cover fetching (line 315, _download_cover) never
  raises and has no observable effect on the recorded artifacts, and a
  tagging exception (line 347) is caught and only logged, so the
  embedRaises flag cannot influence the outcome.  Artifact writes and
  per-track tool invocations are recorded as an event trace.
-/

inductive FailReason where
  | toolError
  | fileNotFound
  | exceptionMsg (msg : String)

/-- The literal reason string the source stores in each failure record:
line 335 for a non-zero exit, line 342 for a missing file, line 351 for
a caught exception rendered with str. -/
def FailReason.text : FailReason → String
  | FailReason.toolError => "yt-dlp error"
  | FailReason.fileNotFound => "file not found after download"
  | FailReason.exceptionMsg m => m

structure FailureRecord where
  name : JVal
  artists : JVal
  reason : FailReason

inductive AcqEvent where
  | writeMetadata (tracks : List JVal)
  | downloadAttempt (idx : Nat)
  | writeFailureReport (records : List FailureRecord)

structure AcqEnv where
  toolResult : Nat → Except String Int
  foundFiles : Nat → List String
  embedRaises : Nat → Bool

/-- The reads of the track dict performed before the per-track try
block (lines 312, 313 and 315); on a non-dict track they raise and the
exception leaves the whole command. -/
def trackMeta (track : JVal) : Except Unit (JVal × JVal) :=
  match pyGet track "name" with
  | Except.error e => Except.error e
  | Except.ok nm =>
    match pyGet track "artists" with
    | Except.error e => Except.error e
    | Except.ok ar =>
      match pyGet track "cover_url" with
      | Except.error e => Except.error e
      | Except.ok _ => Except.ok (nm, ar)

/-- Outcome of the guarded per-track body (lines 322-351): an exception
anywhere in the try block is recorded with its message, a non-zero tool
exit is recorded as the tool error, an empty glob as the missing file;
otherwise the track succeeds, and a tagging failure does not turn the
track into a failure. -/
def trackOutcome (env : AcqEnv) (idx : Nat) (nm ar : JVal) : Option FailureRecord :=
  match env.toolResult idx with
  | Except.error msg => some ⟨nm, ar, FailReason.exceptionMsg msg⟩
  | Except.ok rc =>
    if rc ≠ 0 then some ⟨nm, ar, FailReason.toolError⟩
    else
      match env.foundFiles idx with
      | [] => some ⟨nm, ar, FailReason.fileNotFound⟩
      | _ :: _ => none

/-- The per-track loop (lines 311-351), yielding the tool-invocation
events, the failure records in order, and whether an exception escaped
the loop from the code before a try block. -/
def acqLoop (env : AcqEnv) : List JVal → Nat → List AcqEvent × List FailureRecord × Bool
  | [], _ => ([], [], false)
  | track :: rest, idx =>
    match trackMeta track with
    | Except.error _ => ([], [], true)
    | Except.ok (nm, ar) =>
      let r := acqLoop env rest (idx + 1)
      match trackOutcome env idx nm ar with
      | some f => (AcqEvent.downloadAttempt idx :: r.1, f :: r.2.1, r.2.2)
      | none => (AcqEvent.downloadAttempt idx :: r.1, r.2.1, r.2.2)

structure RunResult where
  events : List AcqEvent
  failed : List FailureRecord
  crashed : Bool
  summary : Option (Nat × Nat)

/-- Acquisition Orchestrator body after the tracks are in hand (lines
299-360): the metadata artifact holding the full track list is written
first, each track is processed in order starting at sequence number 1,
and after the loop the summary counts successes as total minus failed
and the failure report is written exactly when the failure list is
truthy; when an exception escapes the loop neither the summary nor the
failure report is reached. -/
def acquisitionRun (env : AcqEnv) (tracks : List JVal) : RunResult :=
  let r := acqLoop env tracks 1
  if r.2.2 then
    ⟨AcqEvent.writeMetadata tracks :: r.1, r.2.1, true, none⟩
  else
    ⟨AcqEvent.writeMetadata tracks ::
       r.1 ++ (if r.2.1.isEmpty then [] else [AcqEvent.writeFailureReport r.2.1]),
     r.2.1, false, some (tracks.length - r.2.1.length, tracks.length)⟩

/-- The full command (lines 286-360): missing tool and empty collection
exit with status 2 before any artifact is written; an exception
escaping the loop reaches the outermost handler and exits with 1,
otherwise the command returns 0. -/
def cmd_export_playlist_with_audio (ytDlpOnPath : Bool) (prim : PrimarySource)
    (fb : List FBResp) (env : AcqEnv) : Int × Option RunResult :=
  if ytDlpOnPath = false then (2, none)
  else
    let tracks := _collect_playlist_tracks prim fb
    if tracks.isEmpty then (2, none)
    else
      let r := acquisitionRun env tracks
      (if r.crashed then 1 else 0, some r)

/-
  Concrete scenario values used by the closed claims and witnesses.
-/

/-- A raw catalog item whose payload holds one name field. -/
def mkItem (n : Nat) : JVal :=
  JVal.obj [("itemV2", JVal.obj [("data", JVal.obj [("name", JVal.str (natStr n))])])]

/-- The canonical record the extractor produces from mkItem n. -/
def mkRec (n : Nat) : JVal :=
  JVal.obj [("name", JVal.str (natStr n)), ("artists", JVal.str ""), ("album", JVal.null),
    ("uri", JVal.null), ("id", JVal.null), ("duration_ms", JVal.null), ("cover_url", JVal.null)]

/-- A raw playlist response wrapping the given items. -/
def mkResp (items : List JVal) : JVal :=
  JVal.obj [("data", JVal.obj [("playlistV2", JVal.obj
    [("content", JVal.obj [("items", JVal.arr items)])])])]

/-- The response for the batch at offset 100 * k holding len items. -/
def batchResp (k len : Nat) : JVal :=
  mkResp ((List.range len).map (fun i => mkItem (100 * k + i)))

/-- Fallback answers: three full batches, one short batch of 40, and a
further full batch that must never be requested. -/
def fb4 : List FBResp :=
  [FBResp.resp (batchResp 0 100), FBResp.resp (batchResp 1 100), FBResp.resp (batchResp 2 100),
   FBResp.resp (batchResp 3 40), FBResp.resp (batchResp 4 100)]

/-- A primary source that raises before yielding anything. -/
def prim4 : PrimarySource := ⟨[], true⟩

/-- A raw catalog item whose payload is non-empty yet holds none of the
recognized track fields. -/
def itemJunk : JVal :=
  JVal.obj [("itemV2", JVal.obj [("data", JVal.obj [("junk", JVal.num 1)])])]

/-- The record the extractor derives from itemJunk: every field is
empty or absent. -/
def blankRec : JVal :=
  JVal.obj [("name", JVal.null), ("artists", JVal.str ""), ("album", JVal.null),
    ("uri", JVal.null), ("id", JVal.null), ("duration_ms", JVal.null), ("cover_url", JVal.null)]

/-- Bool test for a record all of whose field values are falsy. -/
def allFieldsBlank : JVal → Bool
  | JVal.obj kvs => kvs.all (fun kv => !truthy kv.2)
  | _ => false

/-- A canonical track record with the given name and artists. -/
def trk5 (nm ar : String) : JVal :=
  JVal.obj [("name", JVal.str nm), ("artists", JVal.str ar), ("album", JVal.null),
    ("uri", JVal.null), ("id", JVal.null), ("duration_ms", JVal.null), ("cover_url", JVal.null)]

/-- Five tracks for the orchestrator scenario. -/
def tracks5 : List JVal :=
  [trk5 "T1" "A1", trk5 "T2" "A2", trk5 "T3" "A3", trk5 "T4" "A4", trk5 "T5" "A5"]

/-- Environment in which only the third tool invocation exits non-zero
and every produced file is found. -/
def env5 : AcqEnv :=
  ⟨fun idx => Except.ok (if idx = 3 then 1 else 0), fun _ => ["out.mp3"], fun _ => false⟩

/-- A primary source that completes after one chunk with one track. -/
def prim3 : PrimarySource := ⟨[mkResp [mkItem 0]], false⟩

/-- A fallback source with data available, to show it is not consulted. -/
def fb3 : List FBResp := [FBResp.resp (batchResp 0 100)]

/-- A primary source that yields one chunk with one track and then
raises. -/
def primDup : PrimarySource := ⟨[mkResp [mkItem 7]], true⟩

/-- A fallback source whose single short batch holds the same item the
primary source already yielded. -/
def fbDup : List FBResp := [FBResp.resp (mkResp [mkItem 7])]

/-- A backend whose writers leave the bytes unchanged, for witnesses. -/
def trivBackend : TagBackend :=
  ⟨fun b _ _ _ _ => Except.ok b, fun b _ _ _ _ => Except.ok b,
   fun b _ _ _ => Except.ok b, fun b _ _ _ => Except.ok b⟩

/-
  Helper lemmas about the collector: appending to the shared
  accumulator commutes with collection, which is what makes the partial
  primary results survive into the fallback path.
-/

theorem collectFromItems_eq (l : List JVal) : ∀ acc : List JVal,
    collectFromItems acc l = (acc ++ (collectFromItems [] l).1, (collectFromItems [] l).2) := by
  induction l with
  | nil => intro acc; simp [collectFromItems]
  | cons e rest ih =>
    intro acc
    cases h : _extract_track_from_item e with
    | error err => simp [collectFromItems, h]
    | ok t =>
      simp only [collectFromItems, h]
      by_cases ht : truthy t = true
      · simp only [ht, if_true, List.nil_append]
        rw [ih (acc ++ [t]), ih [t]]
        simp
      · simp only [ht, Bool.false_eq_true, if_false]
        rw [ih acc]

theorem fallbackIter_eq (v : JVal) (acc : List JVal) :
    fallbackIter acc v = (acc ++ (fallbackIter [] v).1, (fallbackIter [] v).2) := by
  unfold fallbackIter
  cases hc : contentItems v with
  | error e => simp
  | ok items =>
    by_cases ht : truthy items = false
    · simp [ht]
    · simp only [ht, if_false]
      cases hi : iterElems items with
      | error e => simp
      | ok elems =>
        simp only []
        rw [collectFromItems_eq elems acc]
        cases hb : (collectFromItems [] elems).2
        · simp only [Bool.false_eq_true, if_false]
          cases hl : pyLen items with
          | error e => simp
          | ok n =>
            by_cases hn : n < 100
            · simp [hn]
            · simp [hn]
        · simp

theorem fallbackRun_eq (fb : List FBResp) : ∀ acc : List JVal,
    fallbackRun acc fb = (acc ++ (fallbackRun [] fb).1, (fallbackRun [] fb).2) := by
  induction fb with
  | nil => intro acc; simp [fallbackRun]
  | cons r rest ih =>
    intro acc
    cases r with
    | raise => simp [fallbackRun]
    | resp v =>
      rcases hp : fallbackIter [] v with ⟨t0, b0⟩
      have ha := fallbackIter_eq v acc
      rw [hp] at ha
      cases b0
      · simp [fallbackRun, ha, hp]
      · simp only [fallbackRun, ha, hp]
        rw [ih (acc ++ t0), ih t0]
        simp

theorem collect_split (prim : PrimarySource) (fb : List FBResp) :
    _collect_run prim fb =
      if !(primaryRun prim).2 && !(primaryRun prim).1.isEmpty
      then ((primaryRun prim).1, 0)
      else ((primaryRun prim).1 ++ fallbackCollected fb,
            (fallbackRun (primaryRun prim).1 fb).2) := by
  unfold _collect_run
  by_cases h : (!(primaryRun prim).2 && !(primaryRun prim).1.isEmpty) = true
  · simp [h]
  · simp only [Bool.not_eq_true] at h
    simp only [h, Bool.false_eq_true, if_false]
    rw [fallbackRun_eq fb (primaryRun prim).1]
    rfl

/-- Claim C2: for every playlist input the Playlist Collector never
raises when the primary paginated source or the fallback offset source
fails; modelled as the total function it is (every exception in either
path is caught in the source), its result is always the tracks the
primary path collected up to its point of failure, followed, unless the
primary path finished without raising and with a truthy list, by the
tracks the fallback path collected up to its own point of failure,
possibly the empty list. -/
theorem claim_C2 (prim : PrimarySource) (fb : List FBResp) :
    _collect_playlist_tracks prim fb =
      (primaryRun prim).1 ++
        (if !(primaryRun prim).2 && !(primaryRun prim).1.isEmpty
         then [] else fallbackCollected fb) := by
  unfold _collect_playlist_tracks
  rw [collect_split]
  by_cases h : (!(primaryRun prim).2 && !(primaryRun prim).1.isEmpty) = true
  · simp [h]
  · simp only [Bool.not_eq_true] at h
    simp [h]

/-- Claim C3: when the primary paginated stream completes without
raising and yields at least one track, the Playlist Collector returns
exactly those tracks and makes no call at all to the fallback offset
endpoint. -/
theorem claim_C3 (prim : PrimarySource) (fb : List FBResp) (ts : List JVal)
    (hp : primaryRun prim = (ts, false)) (hne : ts.isEmpty = false) :
    _collect_playlist_tracks prim fb = ts ∧ _collect_fallback_calls prim fb = 0 := by
  unfold _collect_playlist_tracks _collect_fallback_calls
  rw [collect_split]
  rw [hp]
  simp [hne]

/-- Witness for claim C3 at a primary stream of one chunk holding one
track, with a fallback source that has a full batch available. -/
theorem claim_C3_witness :
    _collect_playlist_tracks prim3 fb3 = [mkRec 0] ∧ _collect_fallback_calls prim3 fb3 = 0 :=
  claim_C3 prim3 fb3 [mkRec 0] rfl rfl

set_option maxRecDepth 100000 in
/-- Claim C4: when the primary path raises before yielding anything and
the fallback endpoint answers three full batches of 100 items and then
a batch of 40 items, every item carrying a track payload, the Playlist
Collector returns exactly the 340 records in batch and in-batch order,
and makes exactly 4 endpoint calls even though a further batch is
available. -/
theorem claim_C4 :
    _collect_playlist_tracks prim4 fb4 = (List.range 340).map mkRec ∧
      _collect_fallback_calls prim4 fb4 = 4 :=
  ⟨rfl, rfl⟩

/-- Claim C9: when the primary paginated stream raises after some
tracks were already extracted, the Playlist Collector keeps those
partial primary results and appends every track the fallback path
collects starting again at offset 0; on a concrete playlist whose
single track is yielded by both paths, the same record therefore
appears twice in the returned list. -/
theorem claim_C9 :
    (∀ (prim : PrimarySource) (fb : List FBResp),
        (primaryRun prim).2 = true → (primaryRun prim).1.isEmpty = false →
        _collect_playlist_tracks prim fb = (primaryRun prim).1 ++ fallbackCollected fb)
    ∧ _collect_playlist_tracks primDup fbDup = [mkRec 7, mkRec 7] := by
  constructor
  · intro prim fb hr _
    unfold _collect_playlist_tracks
    rw [collect_split]
    simp [hr]
  · rfl

/-- Witness for the general part of claim C9, at the primary stream
that yields one track and then raises. -/
theorem claim_C9_witness :
    _collect_playlist_tracks primDup fbDup = (primaryRun primDup).1 ++ fallbackCollected fbDup :=
  claim_C9.1 primDup fbDup rfl rfl

/-- Counterexample to claim C5: the record extracted from an item whose
non-empty payload holds none of the recognized track fields has every
field empty or absent, yet it is emitted into the collected track list. -/
theorem claim_C5_counterexample :
    _collect_playlist_tracks ⟨[mkResp [itemJunk]], false⟩ [] = [blankRec] ∧
      allFieldsBlank blankRec = true :=
  ⟨rfl, rfl⟩

/-- Claim C5 as amended: the Track Extractor returns an empty result
whenever the item carries no track payload (a falsy payload value); but
an item with a non-empty payload carrying none of the recognized track
fields yields a record with every field empty or absent, and such a
record is truthy and hence emitted into the collected track list. -/
theorem claim_C5 :
    (∀ item d, itemData item = Except.ok d → truthy d = false →
        _extract_track_from_item item = Except.ok (JVal.obj []))
    ∧ (_extract_track_from_item itemJunk = Except.ok blankRec ∧ truthy blankRec = true) := by
  refine ⟨?_, rfl, rfl⟩
  intro item d h hd
  unfold _extract_track_from_item
  rw [h]
  simp [hd]

/-- Witness for the general part of claim C5 at the item that is an
empty dict, whose defaulted payload is the falsy empty dict. -/
theorem claim_C5_witness :
    _extract_track_from_item (JVal.obj []) = Except.ok (JVal.obj []) :=
  claim_C5.1 (JVal.obj []) (JVal.obj []) rfl rfl

/-- Claim C1: over 5 tracks with exactly the third tool invocation
exiting non-zero and every other step succeeding, the run does not
crash, the final summary reports 4 of 5 succeeded, the failure report
holds exactly one record whose reason is the tool-error reason recorded
for a non-zero exit (the string named by FailReason.text), and the
metadata artifact written as the first event lists all 5 tracks. -/
theorem claim_C1 :
    tracks5.length = 5 ∧
    (acquisitionRun env5 tracks5).summary = some (4, 5) ∧
    (acquisitionRun env5 tracks5).failed =
      [⟨JVal.str "T3", JVal.str "A3", FailReason.toolError⟩] ∧
    (acquisitionRun env5 tracks5).events =
      [AcqEvent.writeMetadata tracks5, AcqEvent.downloadAttempt 1, AcqEvent.downloadAttempt 2,
       AcqEvent.downloadAttempt 3, AcqEvent.downloadAttempt 4, AcqEvent.downloadAttempt 5,
       AcqEvent.writeFailureReport [⟨JVal.str "T3", JVal.str "A3", FailReason.toolError⟩]] :=
  ⟨rfl, rfl, rfl, rfl⟩

theorem acqLoop_events_attempts (env : AcqEnv) :
    ∀ (l : List JVal) (idx : Nat) (e : AcqEvent),
      e ∈ (acqLoop env l idx).1 → ∃ j, e = AcqEvent.downloadAttempt j := by
  intro l
  induction l with
  | nil =>
    intro idx e he
    simp [acqLoop] at he
  | cons track rest ih =>
    intro idx e he
    unfold acqLoop at he
    cases h : trackMeta track with
    | error err => simp [h] at he
    | ok pr =>
      obtain ⟨nm, ar⟩ := pr
      cases ho : trackOutcome env idx nm ar with
      | some f =>
        simp only [h, ho, List.mem_cons] at he
        rcases he with rfl | hmem
        · exact ⟨idx, rfl⟩
        · exact ih (idx + 1) e hmem
      | none =>
        simp only [h, ho, List.mem_cons] at he
        rcases he with rfl | hmem
        · exact ⟨idx, rfl⟩
        · exact ih (idx + 1) e hmem

/-- Claim C6: for every environment and track list the metadata
artifact holding the full track list is the first event of the run, so
it is written before any tool invocation is attempted; and in every run
in which the loop completes (every run over the dict records the
collector produces), the failure report artifact is written if and only
if at least one failure record exists at the end of the run. -/
theorem claim_C6 (env : AcqEnv) (tracks : List JVal) :
    (∃ rest, (acquisitionRun env tracks).events = AcqEvent.writeMetadata tracks :: rest)
    ∧ ((acquisitionRun env tracks).crashed = false →
        ((∃ f, AcqEvent.writeFailureReport f ∈ (acquisitionRun env tracks).events) ↔
          (acquisitionRun env tracks).failed ≠ [])) := by
  unfold acquisitionRun
  rcases hl : acqLoop env tracks 1 with ⟨evs, fails, crashed⟩
  simp only [hl]
  cases crashed
  · simp only [Bool.false_eq_true, if_false]
    refine ⟨⟨_, rfl⟩, fun _ => ?_⟩
    by_cases hemp : fails.isEmpty = true
    · have hfe : fails = [] := by simpa using hemp
      subst hfe
      simp only [List.isEmpty_nil, if_true, List.append_nil]
      constructor
      · rintro ⟨f, hf⟩
        exfalso
        simp only [List.mem_cons] at hf
        rcases hf with hf | hf
        · exact absurd hf (by simp)
        · rcases acqLoop_events_attempts env tracks 1 _ (by rw [hl]; exact hf) with ⟨j, hj⟩
          exact absurd hj (by simp)
      · intro hne
        exact absurd rfl hne
    · have hemp2 : fails.isEmpty = false := by simpa using hemp
      simp only [hemp2, Bool.false_eq_true, if_false]
      constructor
      · intro _ hfe
        rw [hfe] at hemp2
        simp at hemp2
      · intro _
        exact ⟨fails, by simp⟩
  · simp

/-- Witness for claim C6 in the five-track scenario, whose run does not
crash. -/
theorem claim_C6_witness :
    (∃ f, AcqEvent.writeFailureReport f ∈ (acquisitionRun env5 tracks5).events) ↔
      (acquisitionRun env5 tracks5).failed ≠ [] :=
  (claim_C6 env5 tracks5).2 rfl

theorem digitChar_isDigit (d : Nat) (h : d < 10) : (Nat.digitChar d).isDigit = true := by
  interval_cases d <;> decide

theorem natCharsAux_digits :
    ∀ (fuel n : Nat) (c : Char), c ∈ natCharsAux fuel n → c.isDigit = true := by
  intro fuel
  induction fuel with
  | zero =>
    intro n c hc
    simp [natCharsAux] at hc
  | succ f ih =>
    intro n c hc
    unfold natCharsAux at hc
    by_cases h : n < 10
    · simp only [h, if_true, List.mem_singleton] at hc
      subst hc
      exact digitChar_isDigit n h
    · simp only [h, if_false, List.mem_append, List.mem_singleton] at hc
      rcases hc with hc | hc
      · exact ih (n / 10) c hc
      · subst hc
        exact digitChar_isDigit (n % 10) (Nat.mod_lt n (by omega))

theorem format03_digits (n : Nat) (c : Char) (hc : c ∈ (format03 n).data) :
    c.isDigit = true := by
  simp only [format03, pad3, String.mk, List.mem_append] at hc
  rcases hc with hc | hc
  · rw [List.eq_of_mem_replicate hc]
    decide
  · exact natCharsAux_digits (n + 1) n c hc

theorem digit_keepChar (c : Char) (h : c.isDigit = true) : keepChar c = true := by
  unfold keepChar
  rw [decide_eq_true_iff]
  intro hmem
  fin_cases hmem <;> exact absurd h (by decide)

theorem format03_filter (idx : Nat) :
    (format03 idx).data.filter keepChar = (format03 idx).data :=
  List.filter_eq_self.mpr (fun c hc => digit_keepChar c (format03_digits idx c hc))

/-- Claim C7 as amended: the derived safe filename contains none of the
stripped characters, is at most 100 characters long before the
extension placeholder, and begins with the zero-padded sequence number
prefix whenever that prefix fits into the 100-character budget, in
particular for every index of at most 100 decimal digits. -/
theorem claim_C7 (idx : Nat) (name : String) :
    (∀ c ∈ (safe_name idx name).data, c ∉ illegalChars)
    ∧ (safe_name idx name).length ≤ 100
    ∧ ((format03 idx).data.length ≤ 100 →
        (safe_name idx name).data.take (format03 idx).data.length = (format03 idx).data) := by
  refine ⟨?_, ?_, ?_⟩
  · intro c hc
    simp only [safe_name, String.mk] at hc
    have h2 := List.mem_of_mem_take hc
    have h3 := List.of_mem_filter h2
    unfold keepChar at h3
    exact of_decide_eq_true h3
  · show ((((format03 idx).data ++ '_' :: name.data).filter keepChar).take 100).length ≤ 100
    rw [List.length_take]
    exact min_le_left _ _
  · intro hlen
    show (((((format03 idx).data ++ '_' :: name.data).filter keepChar).take 100)).take
        (format03 idx).data.length = (format03 idx).data
    rw [List.filter_append, format03_filter, List.take_take, min_eq_left hlen,
      List.take_append_eq_append_take, List.take_of_length_le (le_refl _),
      Nat.sub_self, List.take_zero, List.append_nil]

set_option maxRecDepth 10000 in
/-- Counterexample to claim C7 as stated: at the index equal to ten to
the power 100 the formatted sequence number alone is 101 characters, so
after truncation to 100 characters the derived filename no longer
begins with the sequence number prefix. -/
theorem claim_C7_counterexample :
    ¬ ((safe_name (10 ^ 100) "x").data.take (format03 (10 ^ 100)).data.length
        = (format03 (10 ^ 100)).data) := by
  decide

/-- Witness for claim C7 at index 7 and a name holding a stripped
character. -/
theorem claim_C7_witness :
    (safe_name 7 "a?b").data.take (format03 7).data.length = (format03 7).data :=
  (claim_C7 7 "a?b").2.2 (by decide)

theorem pyGetD_obj (kvs : List (String × JVal)) (k : String) (d : JVal) :
    ∃ x, pyGetD (JVal.obj kvs) k d = Except.ok x := by
  unfold pyGetD
  cases hk : kvs.lookup k with
  | none => exact ⟨d, by simp [hk]⟩
  | some x => exact ⟨x, by simp [hk]⟩

/-- Claim C8: for every file whose lowercased extension is none of the
supported ones (the id3, mp4-family, opus and ogg extensions), in
particular for the wav family, the Tag Embedder leaves the bytes of the
file unchanged and raises nothing, whatever the backend writers would
do; the track is any dict, as produced by the collector. -/
theorem claim_C8 (be : TagBackend) (path : String) (kvs : List (String × JVal))
    (cover : Option (List Nat)) (bytes : List Nat)
    (h : lowerStr (splitextExt path) ∉ supportedExtensions) :
    _embed_tags be path (JVal.obj kvs) cover bytes = Except.ok bytes := by
  have hd : _embed_tags_dispatch path = TagHandler.unsupported := by
    simp only [supportedExtensions, List.mem_cons, List.not_mem_nil, or_false] at h
    push_neg at h
    obtain ⟨h1, h2, h3, h4, h5, h6⟩ := h
    simp [_embed_tags_dispatch, extHandler, h1, h2, h3, h4, h5, h6]
  obtain ⟨x1, e1⟩ := pyGetD_obj kvs "name" JVal.null
  obtain ⟨x2, e2⟩ := pyGetD_obj kvs "artists" JVal.null
  obtain ⟨x3, e3⟩ := pyGetD_obj kvs "album" JVal.null
  unfold _embed_tags pyGet
  rw [e1, e2, e3, hd]

/-- Witness for claim C8 at a wav file and a track with no fields. -/
theorem claim_C8_witness :
    _embed_tags trivBackend "song.wav" (JVal.obj []) none [0, 1] = Except.ok [0, 1] :=
  claim_C8 trivBackend "song.wav" [] none [0, 1] (by decide)

/-- Claim C10: the Tag Embedder lowercases the file extension before
dispatching, so the chosen format handler depends only on the
case-insensitive extension, and in particular a file with the uppercase
mp3 extension is dispatched to the id3 branch rather than to the
unsupported no-op branch. -/
theorem claim_C10 :
    (∀ p q : String, lowerStr (splitextExt p) = lowerStr (splitextExt q) →
        _embed_tags_dispatch p = _embed_tags_dispatch q)
    ∧ _embed_tags_dispatch "song.MP3" = TagHandler.id3 :=
  ⟨fun p q h => by unfold _embed_tags_dispatch; rw [h], rfl⟩

/-- Witness for claim C10 at two paths whose extensions differ only in
case. -/
theorem claim_C10_witness :
    _embed_tags_dispatch "a.OGG" = _embed_tags_dispatch "b.ogg" :=
  claim_C10.1 "a.OGG" "b.ogg" rfl
